import Mathlib

/-!
# Verification of the Synse SDK core against its specification

Shallow embedding of the Synse plugin SDK core (transaction state machine,
transaction cache, reading transform pipeline, context merge, device-selector
resolution, and RPC error paths), with theorems settling the frozen claims
about the natural-language specification.

Durations are modelled as integers (nanosecond counts, as in Go's
`time.Duration`); timestamps produced by `utils.GetCurrentTime` are opaque
strings and are passed explicitly where the Go code reads the clock.
-/

namespace SynseSDK

/-! ## Transactions (src/sdk/transaction.go) -/

/-- Write statuses, from the `synse.WriteStatus` constants bound at the top of
`transaction.go` (`statusPending`, `statusWriting`, `statusDone`,
`statusError`). -/
inductive WriteStatus where
  | pending
  | writing
  | done
  | error
  deriving DecidableEq, Repr

/-- The `transaction` struct of `transaction.go` (lines 96–103): id, status,
created/updated timestamps, message, timeout. -/
structure Transaction where
  id : String
  status : WriteStatus
  created : String
  updated : String
  message : String
  timeout : Int
  deriving DecidableEq, Repr

/-- `transaction.setStatusPending`: refreshes `updated` with the current time
and sets the status to PENDING. The current time is passed explicitly. -/
def setStatusPending (t : Transaction) (now : String) : Transaction :=
  { t with updated := now, status := .pending }

/-- `transaction.setStatusWriting`: refreshes `updated` and sets the status to
WRITING. -/
def setStatusWriting (t : Transaction) (now : String) : Transaction :=
  { t with updated := now, status := .writing }

/-- `transaction.setStatusDone`: refreshes `updated` and sets the status to
DONE. -/
def setStatusDone (t : Transaction) (now : String) : Transaction :=
  { t with updated := now, status := .done }

/-- `transaction.setStatusError`: refreshes `updated` and sets the status to
ERROR. -/
def setStatusError (t : Transaction) (now : String) : Transaction :=
  { t with updated := now, status := .error }

/-- The configuration of a `go-cache` cache as built by `cache.New
(defaultExpiration, cleanupInterval)`: items set with the default expiration
expire `defaultExpiration` after insertion, and the background janitor
(reaper) runs every `cleanupInterval`. This models the external
`github.com/patrickmn/go-cache` constructor contract consumed by
`transaction.go`. -/
structure TransactionCache where
  defaultExpiration : Int
  cleanupInterval : Int
  deriving DecidableEq, Repr

/-- `cache.New(defaultExpiration, cleanupInterval)` from go-cache. -/
def cacheNew (defaultExpiration cleanupInterval : Int) : TransactionCache :=
  { defaultExpiration := defaultExpiration, cleanupInterval := cleanupInterval }

/-- `setupTransactionCache(ttl)` (transaction.go line 47–49): builds the global
transaction cache as `cache.New(ttl, ttl*2)`. -/
def setupTransactionCache (ttl : Int) : TransactionCache :=
  cacheNew ttl (ttl * 2)

/-- The absolute expiry instant of an entry inserted with
`cache.DefaultExpiration` (as `newTransaction` does via
`transactionCache.Set(id, &t, cache.DefaultExpiration)`): for a positive
default expiration, insertion time plus the cache's default expiration;
a non-positive default expiration means the entry never expires (go-cache
`Set` only computes an expiry for `d > 0`). -/
def entryExpiry (c : TransactionCache) (insertedAt : Int) : Option Int :=
  if 0 < c.defaultExpiration then some (insertedAt + c.defaultExpiration)
  else none

/-- `newTransaction(timeout)` (transaction.go lines 56–74): fresh id, PENDING
status, created = updated = now, empty message. The generated `xid` and the
clock reading are passed explicitly. -/
def newTransaction (timeout : Int) (id now : String) : Transaction :=
  { id := id, status := .pending, created := now, updated := now
    message := "", timeout := timeout }

/-! ## Reading values and transformers

The scheduler implementation (`scheduler.go`) is not part of the provided
sources; only its tests are (`scheduler_test.go`). The pipeline below is
modelled from the spec (§4.4 "Reading pipeline") and anchored by the
behaviour those tests pin down. -/

/-- A reading value: the spec's tagged variant over
`{int64, float64, bool, string, bytes}` (§3 "Reading", §9). Floating-point
values are represented exactly as rationals. -/
inductive Value where
  | intV (i : Int)
  | floatV (q : ℚ)
  | boolV (b : Bool)
  | strV (s : String)
  | bytesV (bs : List Nat)
  deriving DecidableEq, Repr

/-- Numeric coercion of a reading value to a float, as done by the scale
transformer before multiplying; non-numeric values do not convert. -/
def Value.toFloat : Value → Option ℚ
  | .intV i => some (i : ℚ)
  | .floatV q => some q
  | _ => none

/-- A transformer attached to a device: `Scale{factor}` or `Apply{fn}`
(spec §4.4). The apply function is an arbitrary fallible pure function on
values. -/
inductive Transformer where
  | scale (factor : ℚ)
  | apply (fn : Value → Except String Value)

/-- Modelled from the spec: applying one transformer to a reading value.
`Scale` rejects factor 0 and otherwise multiplies the value as a float
(tests show an int input scaled by 2 becomes the float 4); `Apply` runs the
function. -/
def applyTransformer : Transformer → Value → Except String Value
  | .scale factor, v =>
      if factor = 0 then .error "scale factor must not be 0"
      else
        match v.toFloat with
        | some q => .ok (.floatV (q * factor))
        | none => .error "value is not numeric"
  | .apply fn, v => fn v

/-- Modelled from the spec: the device's transformer list applied in order to
a reading value, mutating the value in place as the Go loop does. The result
is the value after the longest successful prefix, paired with the error of
the first failing transformer (if any): on failure the pipeline stops, but
the effects of the earlier successful transformers remain on the value. -/
def applyTransformations : List Transformer → Value → Value × Option String
  | [], v => (v, none)
  | t :: ts, v =>
      match applyTransformer t v with
      | .ok v' => applyTransformations ts v'
      | .error e => (v, some e)

/-- All transformers applied in order, requiring every one to succeed. Used
to state which value the pipeline has produced so far. -/
def applyAll : List Transformer → Value → Except String Value
  | [], v => .ok v
  | t :: ts, v =>
      match applyTransformer t v with
      | .ok v' => applyAll ts v'
      | .error e => .error e

/-! ## Context maps -/

/-- A reading/device context map: association list with unique keys (a Go
`map[string]string`). -/
abbrev Ctx := List (String × String)

/-- First-match lookup in a context map. -/
def ctxLookup : Ctx → String → Option String
  | [], _ => none
  | (k, v) :: rest, key => if k = key then some v else ctxLookup rest key

/-- Go map assignment `m[k] = v`: replace the value at an existing key,
otherwise append the pair. -/
def ctxInsert : Ctx → String × String → Ctx
  | [], p => [p]
  | (k, v) :: rest, (k', v') =>
      if k = k' then (k, v') :: rest else (k, v) :: ctxInsert rest (k', v')

/-- Modelled from the spec (§4.4): merge the device's context map into a
reading's context, device keys winning over reading-supplied keys. Matches
the Go loop `for k, v := range device.Context { reading.Context[k] = v }`. -/
def mergeDeviceContext (devCtx readingCtx : Ctx) : Ctx :=
  devCtx.foldl ctxInsert readingCtx

/-! ## Devices, readings and finalizeReadings -/

/-- The fields of a reading relevant to the pipeline: its value and its
context map (spec §3 "Reading"). -/
structure Reading where
  value : Value
  context : Ctx
  deriving DecidableEq, Repr

/-- The fields of a device relevant to the pipeline: its id, its ordered
transformer list and its context map (spec §3 "Device"). -/
structure Device where
  id : String
  transforms : List Transformer
  context : Ctx

/-- Modelled from the spec: `finalizeReadings` on a single reading — apply
the device's transformer list in order, and on success merge the device's
context into the reading's context. On the first failing transformer the
error is returned and the context merge does not happen, but the value keeps
the effects of the earlier successful transformers. -/
def finalizeReading (d : Device) (r : Reading) : Reading × Option String :=
  match applyTransformations d.transforms r.value with
  | (v, some e) => ({ r with value := v }, some e)
  | (v, none) =>
      ({ value := v, context := mergeDeviceContext d.context r.context }, none)

/-- Modelled from the spec: `finalizeReadings(device, rctx)` over the
readings of a ReadContext, processed in order; the first error stops the
loop and is propagated, leaving later readings untouched. -/
def finalizeReadings (d : Device) : List Reading → List Reading × Option String
  | [] => ([], none)
  | r :: rs =>
      match finalizeReading d r with
      | (r', none) =>
          let (rs', e) := finalizeReadings d rs
          (r' :: rs', e)
      | (r', some e) => (r' :: rs, some e)

/-- The per-device current-reading table of the reading store. -/
abbrev ReadingStore := List (String × List Reading)

/-- `ReadingStore.Put`: atomic replacement of a device's current readings. -/
def storePut (store : ReadingStore) (deviceID : String) (rs : List Reading) :
    ReadingStore :=
  match store with
  | [] => [(deviceID, rs)]
  | (k, old) :: rest =>
      if k = deviceID then (k, rs) :: rest
      else (k, old) :: storePut rest deviceID rs

/-- Modelled from the spec (§4.4): a ReadContext entering the store passes
through `finalizeReadings`; only on success is the finalised ReadContext
handed to `ReadingStore.Put` — on a transform error the reading is not
inserted and the store is unchanged. -/
def processRead (d : Device) (rs : List Reading) (store : ReadingStore) :
    ReadingStore × Option String :=
  match finalizeReadings d rs with
  | (rs', none) => (storePut store d.id rs', none)
  | (_, some e) => (store, some e)

/-- Lookup of a device's current readings; a device with no entry has no
readings. -/
def storeGet (store : ReadingStore) (deviceID : String) : List Reading :=
  match store with
  | [] => []
  | (k, rs) :: rest => if k = deviceID then rs else storeGet rest deviceID

/-! ## Device handlers (src/sdk/device_handler.go) -/

/-- The write payload handed to a device's Write handler: an action string
plus an opaque payload (spec §3 "WriteData"). -/
structure WriteData where
  action : String
  data : String

/-- The `DeviceHandler` struct of `device_handler.go`: a name and four
nullable operation functions (Write, Read, BulkRead, Listen). -/
structure DeviceHandler where
  name : String
  write : Option (Device → WriteData → Except String Unit)
  read : Option (Device → Except String (List Reading))
  bulkRead : Option (List Device → Except String (List (String × List Reading)))
  listen : Option (Device → Except String Unit)

/-- `DeviceHandler.supportsBulkRead` (device_handler.go line 69–71):
`deviceHandler.Read == nil && deviceHandler.BulkRead != nil`. -/
def supportsBulkRead (h : DeviceHandler) : Bool :=
  h.read.isNone && h.bulkRead.isSome

/-- How the read loop drives a handler: one bulk invocation, or one Read per
device. -/
inductive ReadMode where
  | individual
  | bulk
  deriving DecidableEq, Repr

/-- Modelled from the spec: the read-loop dispatch over a handler
(spec §4.4: "If the handler exposes BulkRead (and no Read), invoke
BulkRead... Otherwise, for each device of that handler, invoke Read";
device_handler.go doc: when both are defined "the handler will default to
individual reads"). The scheduler read loop itself is not in the provided
sources. -/
def readMode (h : DeviceHandler) : ReadMode :=
  if supportsBulkRead h then .bulk else .individual

/-! ## Device selection and the query layer

The device manager and server (`device_manager.go`, `server.go`) are not in
the provided sources; the definitions below are modelled from the spec
(§4.1 selector resolution, §4.5 QueryLayer, §7 error kinds) and anchored by
the server tests in `scheduler_test.go`. -/

/-- A tag: `(namespace, annotation, label)` (spec §3 "Tag"). -/
structure Tag where
  ns : String
  annotation : String
  label : String
  deriving DecidableEq, Repr

/-- The tag index: tag triple → ordered list of device ids (the three-level
map `namespace → annotation → label → [devices]` of the spec, flattened;
keys are unique in the Go map, lookup is first-match). -/
abbrev TagCache := List (Tag × List String)

/-- Lookup of a tag in the tag cache; an unknown namespace/annotation/label
yields the empty device list. -/
def tagGet : TagCache → Tag → List String
  | [], _ => []
  | (t, ds) :: rest, tag => if t = tag then ds else tagGet rest tag

/-- All device ids carrying any tag in the given namespace. -/
def devicesInNamespace (tc : TagCache) (ns : String) : List String :=
  (tc.filter (fun e => e.1.ns = ns)).flatMap (fun e => e.2)

/-- A device selector: an id (empty string when unset, per the protobuf
default) or a list of tags (spec §3 "Selector"). -/
structure Selector where
  id : String
  tags : List Tag

/-- The empty selector: no fields populated. -/
def emptySelector : Selector := { id := "", tags := [] }

/-- The registry/device-manager state consulted by selector resolution:
the id-indexed device map (with the handler binding), the alias index, and
the tag index. -/
structure DeviceManager where
  devices : List (String × DeviceHandler)
  aliases : List (String × String)
  tagCache : TagCache

/-- Modelled from the spec: device lookup by id, falling back to the alias
index. Returns the device's id-and-handler binding, or none. -/
def dmGetDevice (dm : DeviceManager) (key : String) :
    Option (String × DeviceHandler) :=
  match dm.devices.find? (fun p => p.1 == key) with
  | some d => some d
  | none =>
      match dm.aliases.find? (fun p => p.1 == key) with
      | some a => dm.devices.find? (fun p => p.1 == a.2)
      | none => none

/-- The query-layer error kinds relevant to the claims (spec §7). -/
inductive Err where
  | notFound
  | selectorRequiresID
  | noDeviceForSelector
  | deviceNotWritable
  deriving DecidableEq, Repr

/-- Tag-list selection: the intersection across tags — start from the
devices carrying the first tag and keep only those carrying every further
tag. -/
def resolveTags (tc : TagCache) : List Tag → List String
  | [] => []
  | t :: ts =>
      ts.foldl (fun acc t' => acc.filter (fun d => (tagGet tc t').elem d))
        (tagGet tc t)

/-- Modelled from the spec (§4.1): selector resolution. An id (or alias)
selector resolves to that single device or fails with a "not found" error;
an empty selector defaults to all devices in the "system" namespace; a tag
list resolves to the intersection across tags (unknown tags contribute the
empty set without error). -/
def resolve (dm : DeviceManager) (sel : Selector) : Except Err (List String) :=
  if sel.id ≠ "" then
    match dmGetDevice dm sel.id with
    | some d => .ok [d.1]
    | none => .error .notFound
  else if sel.tags.isEmpty then
    .ok (devicesInNamespace dm.tagCache "system")
  else
    .ok (resolveTags dm.tagCache sel.tags)

/-- Modelled from the spec (§4.5): the `Devices` RPC — resolve the selector
and emit one record per resolved device. -/
def serverDevices (dm : DeviceManager) (sel : Selector) :
    Except Err (List String) :=
  resolve dm sel

/-- Modelled from the spec (§4.5): the `Read` RPC — resolve the selector,
snapshot the reading store for each resolved device, and emit the readings. -/
def serverRead (dm : DeviceManager) (store : ReadingStore) (sel : Selector) :
    Except Err (List Reading) :=
  match resolve dm sel with
  | .ok ids => .ok (ids.flatMap (fun i => storeGet store i))
  | .error e => .error e

/-- A WriteAsync payload: a selector plus the write data list (spec §4.5). -/
structure WritePayload where
  selector : Selector
  data : List WriteData

/-- Modelled from the spec (§4.5 `WriteAsync`): the selector must include an
id (else SELECTOR_REQUIRES_ID); the id must match a device (else
NO_DEVICE_FOR_SELECTOR); the device must be writable. On success one PENDING
transaction per data element is created in the transaction cache and emitted
on the stream; on any failure the error is returned, the cache is unchanged
and nothing is emitted. Fresh transaction ids and the clock reading are
passed explicitly. -/
def serverWriteAsync (dm : DeviceManager) (txns : List Transaction)
    (p : WritePayload) (freshIds : List String) (now : String) :
    Option Err × List Transaction × List Transaction :=
  if p.selector.id = "" then
    (some .selectorRequiresID, txns, [])
  else
    match dmGetDevice dm p.selector.id with
    | none => (some .noDeviceForSelector, txns, [])
    | some (_, h) =>
        if h.write.isSome then
          let created := (freshIds.zip p.data).map
            (fun q => newTransaction 0 q.1 now)
          (none, txns ++ created, created)
        else
          (some .deviceNotWritable, txns, [])

/-- Device-wins choice between two optional values: the first (device) value
if present, otherwise the second (reading) value. -/
def optOr (a b : Option String) : Option String :=
  match a with
  | some v => some v
  | none => b

/-!
## Theorems settling the claims
-/

/-- C1 (counterexample): the status setters do not reject illegal
transitions. Calling `setStatusWriting` on a transaction whose status is DONE
is not rejected: it changes the status (to WRITING) instead of leaving it
unchanged, contradicting the claim that any transition outside
PENDING → WRITING → {DONE, ERROR} is rejected with the status unchanged. -/
theorem setStatusWriting_on_done_not_rejected :
    (setStatusWriting ⟨"t1", .done, "c0", "u0", "", 0⟩ "u1").status
        = WriteStatus.writing
    ∧ (setStatusWriting ⟨"t1", .done, "c0", "u0", "", 0⟩ "u1").status
        ≠ WriteStatus.done := by
  decide

/-- C1 (amended): the four status setters are unconditional — each one sets
the transaction's status to its target value regardless of the current
status, and no transition is rejected. The PENDING → WRITING → {DONE, ERROR}
order of observed statuses is a discipline of the callers (the scheduler),
not enforced by the setters. -/
theorem setStatus_setters_unconditional (t : Transaction) (now : String) :
    (setStatusPending t now).status = WriteStatus.pending
    ∧ (setStatusWriting t now).status = WriteStatus.writing
    ∧ (setStatusDone t now).status = WriteStatus.done
    ∧ (setStatusError t now).status = WriteStatus.error :=
  ⟨rfl, rfl, rfl, rfl⟩

/-- C2 (counterexample): `setupTransactionCache(ttl)` builds the cache as
`cache.New(ttl, ttl*2)`, so the reaper (cleanup) interval is `2*ttl`, not the
`ttl/2` the claim states — shown here at ttl = 60. -/
theorem setupTransactionCache_reaper_not_half_ttl :
    ¬ ((setupTransactionCache 60).cleanupInterval = 60 / 2) := by
  decide

/-- C2 (amended): when the transaction cache is created with time-to-live
`ttl`, entries inserted with the default expiration expire `ttl` after
insertion (for positive `ttl`), and the background reaper runs with
granularity `ttl * 2` (not `ttl / 2`). -/
theorem setupTransactionCache_ttl_behavior (ttl insertedAt : Int) :
    (setupTransactionCache ttl).defaultExpiration = ttl
    ∧ (setupTransactionCache ttl).cleanupInterval = ttl * 2
    ∧ (0 < ttl →
        entryExpiry (setupTransactionCache ttl) insertedAt
          = some (insertedAt + ttl)) := by
  refine ⟨rfl, rfl, fun h => ?_⟩
  simp [entryExpiry, setupTransactionCache, cacheNew, h]

/-- Witness for `setupTransactionCache_ttl_behavior` at ttl = 60. -/
theorem setupTransactionCache_ttl_behavior_witness :
    entryExpiry (setupTransactionCache 60) 100 = some 160 := by
  have h := (setupTransactionCache_ttl_behavior 60 100).2.2 (by decide)
  simpa using h

/-- C9: every status setter mutates only the transaction's status and
updated-timestamp fields; id, created, message and timeout are unchanged by
every one of the four setters. -/
theorem setStatus_setters_frame (t : Transaction) (now : String) :
    setStatusPending t now
        = { t with status := .pending, updated := now }
    ∧ setStatusWriting t now
        = { t with status := .writing, updated := now }
    ∧ setStatusDone t now
        = { t with status := .done, updated := now }
    ∧ setStatusError t now
        = { t with status := .error, updated := now } :=
  ⟨rfl, rfl, rfl, rfl⟩

/-- C8: a handler supports bulk reading iff its BulkRead function is set and
its Read function is not; and whenever Read is set (in particular when both
Read and BulkRead are set), the read loop drives the handler with per-device
Read, never BulkRead. -/
theorem supportsBulkRead_iff_read_wins (h : DeviceHandler) :
    (supportsBulkRead h = true ↔ (h.bulkRead.isSome = true ∧ h.read = none))
    ∧ (h.read.isSome = true → readMode h = ReadMode.individual) := by
  constructor
  · cases hr : h.read <;> cases hb : h.bulkRead <;>
      simp [supportsBulkRead, hr, hb]
  · intro hset
    cases hr : h.read with
    | none => rw [hr] at hset; simp at hset
    | some f => simp [readMode, supportsBulkRead, hr]

/-- Witness for `supportsBulkRead_iff_read_wins`: a handler with both Read
and BulkRead set does not support bulk reading and is driven by per-device
Read. -/
theorem supportsBulkRead_iff_read_wins_witness :
    let h : DeviceHandler :=
      { name := "both", write := none, read := some (fun _ => .ok [])
        bulkRead := some (fun _ => .ok []), listen := none }
    (supportsBulkRead h = true ↔ (h.bulkRead.isSome = true ∧ h.read = none))
    ∧ readMode h = ReadMode.individual :=
  ⟨(supportsBulkRead_iff_read_wins _).1,
   (supportsBulkRead_iff_read_wins _).2 rfl⟩

/-- When every transformer of a prefix succeeds (producing `w`) and the next
transformer fails on `w`, the whole pipeline stops there: the returned value
is `w` (the earlier effects remain applied) and the returned error is that of
the first failing transformer — the transformers after it never run. -/
theorem applyTransformations_prefix_error (post : List Transformer)
    (t : Transformer) (e : String) (w : Value)
    (h2 : applyTransformer t w = .error e) :
    ∀ (pre : List Transformer) (v : Value), applyAll pre v = .ok w →
      applyTransformations (pre ++ t :: post) v = (w, some e) := by
  intro pre
  induction pre with
  | nil =>
      intro v h1
      simp [applyAll] at h1
      subst h1
      simp [applyTransformations, h2]
  | cons p ps ih =>
      intro v h1
      cases hp : applyTransformer p v with
      | ok v' =>
          simp [applyAll, hp] at h1
          simpa [applyTransformations, hp] using ih v' h1
      | error e' =>
          simp [applyAll, hp] at h1

/-- C3: with a transformer list `pre ++ [t] ++ post` where every transformer
of `pre` succeeds on the reading's value (yielding `w`) and `t` then fails
with error `e`, `finalizeReadings` applies the transformers in list order,
stops at `t`, and propagates `e`; the reading keeps the partially transformed
value `w` (the effects of the earlier successful transformers), and the
reading is not inserted into the reading store — the store is unchanged. -/
theorem finalizeReadings_first_error_skips_store (did : String)
    (dctx rctx : Ctx) (pre post : List Transformer) (t : Transformer)
    (v w : Value) (e : String) (store : ReadingStore)
    (h1 : applyAll pre v = .ok w) (h2 : applyTransformer t w = .error e) :
    applyTransformations (pre ++ t :: post) v = (w, some e)
    ∧ finalizeReadings ⟨did, pre ++ t :: post, dctx⟩ [⟨v, rctx⟩]
        = ([⟨w, rctx⟩], some e)
    ∧ processRead ⟨did, pre ++ t :: post, dctx⟩ [⟨v, rctx⟩] store
        = (store, some e) := by
  have key := applyTransformations_prefix_error post t e w h2 pre v h1
  refine ⟨key, ?_, ?_⟩
  · simp [finalizeReadings, finalizeReading, key]
  · simp [processRead, finalizeReadings, finalizeReading, key]

/-- Witness for `finalizeReadings_first_error_skips_store`, mirroring the
reordered scale-then-failing-apply test: scale by 2 succeeds turning the int
reading 2 into the float 4, the apply function then fails; the error is
propagated, the value stays at 4, and the store stays empty. -/
theorem finalizeReadings_first_error_skips_store_witness :
    applyTransformations
        [Transformer.scale 2, Transformer.apply (fun _ => .error "test error")]
        (Value.intV 2)
      = (Value.floatV 4, some "test error")
    ∧ finalizeReadings
        ⟨"d2",
         [Transformer.scale 2,
          Transformer.apply (fun _ => .error "test error")], []⟩
        [⟨Value.intV 2, []⟩]
      = ([⟨Value.floatV 4, []⟩], some "test error")
    ∧ processRead
        ⟨"d2",
         [Transformer.scale 2,
          Transformer.apply (fun _ => .error "test error")], []⟩
        [⟨Value.intV 2, []⟩] []
      = ([], some "test error") := by
  have h := finalizeReadings_first_error_skips_store "d2" [] []
    [Transformer.scale 2] [] (Transformer.apply (fun _ => .error "test error"))
    (Value.intV 2) (Value.floatV 4) "test error" []
    (by simp [applyAll, applyTransformer, Value.toFloat]; norm_num)
    (by simp [applyTransformer])
  simpa using h

/-- C10: in the degenerate case — a device with an empty transformer list and
no device context — `finalizeReadings` returns no error and leaves every
reading's value and context map unchanged. -/
theorem finalizeReadings_degenerate_identity (d : Device) (rs : List Reading)
    (h1 : d.transforms = []) (h2 : d.context = []) :
    finalizeReadings d rs = (rs, none) := by
  have hr : ∀ r : Reading, finalizeReading d r = (r, none) := by
    intro r
    simp [finalizeReading, h1, h2, applyTransformations, mergeDeviceContext]
  induction rs with
  | nil => simp [finalizeReadings]
  | cons r tl ih => simp [finalizeReadings, hr r, ih]

/-- Witness for `finalizeReadings_degenerate_identity`, mirroring the
no-transformers test: a reading with value 2 and empty context passes through
untouched. -/
theorem finalizeReadings_degenerate_identity_witness :
    finalizeReadings ⟨"d1", [], []⟩ [⟨Value.intV 2, []⟩]
      = ([⟨Value.intV 2, []⟩], none) :=
  finalizeReadings_degenerate_identity ⟨"d1", [], []⟩ [⟨Value.intV 2, []⟩]
    rfl rfl

/-- Inserting a pair into a context map: lookup at the inserted key now finds
the new value, lookup at any other key is unchanged. -/
theorem ctxLookup_ctxInsert (l : Ctx) (k₀ v₀ k : String) :
    ctxLookup (ctxInsert l (k₀, v₀)) k
      = if k = k₀ then some v₀ else ctxLookup l k := by
  induction l with
  | nil =>
      by_cases hk : k = k₀
      · simp [ctxInsert, ctxLookup, hk]
      · simp [ctxInsert, ctxLookup, hk, Ne.symm hk]
  | cons hd tl ih =>
      obtain ⟨k₁, v₁⟩ := hd
      by_cases h1 : k₁ = k₀
      · subst h1
        by_cases hk : k = k₁
        · simp [ctxInsert, ctxLookup, hk]
        · simp [ctxInsert, ctxLookup, hk, Ne.symm hk]
      · by_cases hk2 : k₁ = k
        · subst hk2
          simp [ctxInsert, ctxLookup, h1]
        · simp [ctxInsert, ctxLookup, h1, hk2, ih]

/-- A key absent from a context map's key list looks up to nothing. -/
theorem ctxLookup_eq_none_of_not_mem (l : Ctx) (k : String)
    (h : k ∉ l.map Prod.fst) : ctxLookup l k = none := by
  induction l with
  | nil => rfl
  | cons hd tl ih =>
      obtain ⟨k₁, v₁⟩ := hd
      simp only [List.map, List.mem_cons] at h
      push_neg at h
      have hne : ¬ k₁ = k := fun he => h.1 he.symm
      simp [ctxLookup, hne, ih h.2]

/-- Merging a device context (with unique keys, as a Go map has) into a
reading context: the merged map looks up to the device's value wherever the
device map has the key, and to the reading's value otherwise. -/
theorem ctxLookup_mergeDeviceContext (dev : Ctx) (k : String)
    (h : (dev.map Prod.fst).Nodup) :
    ∀ rd : Ctx, ctxLookup (mergeDeviceContext dev rd) k
      = optOr (ctxLookup dev k) (ctxLookup rd k) := by
  induction dev with
  | nil =>
      intro rd
      simp [mergeDeviceContext, ctxLookup, optOr]
  | cons hd tl ih =>
      intro rd
      obtain ⟨k₀, v₀⟩ := hd
      simp only [List.map, List.nodup_cons] at h
      have hmerge :
          mergeDeviceContext ((k₀, v₀) :: tl) rd
            = mergeDeviceContext tl (ctxInsert rd (k₀, v₀)) := rfl
      rw [hmerge, ih h.2 (ctxInsert rd (k₀, v₀))]
      by_cases hk : k = k₀
      · subst hk
        have htl : ctxLookup tl k = none :=
          ctxLookup_eq_none_of_not_mem tl k h.1
        simp [htl, ctxLookup_ctxInsert, ctxLookup, optOr]
      · have hne : ¬ k₀ = k := fun he => hk he.symm
        simp [ctxLookup_ctxInsert, hk, ctxLookup, hne]

/-- C4: when the transformer pipeline succeeds, the context delivered by
`finalizeReading` is the union of the reading's context and the device's
context, the device's value winning on any key present in both maps (and the
reading is delivered without error). -/
theorem finalizeReading_context_device_wins (d : Device) (r : Reading)
    (k : String) (hnd : (d.context.map Prod.fst).Nodup)
    (hok : (applyTransformations d.transforms r.value).2 = none) :
    (finalizeReading d r).2 = none
    ∧ ctxLookup (finalizeReading d r).1.context k
        = optOr (ctxLookup d.context k) (ctxLookup r.context k) := by
  cases happ : applyTransformations d.transforms r.value with
  | mk v' e' =>
      rw [happ] at hok
      simp only at hok
      subst hok
      simp only [finalizeReading, happ]
      refine ⟨?_, ctxLookup_mergeDeviceContext d.context k hnd r.context⟩
      trivial

/-- Witness for `finalizeReading_context_device_wins`, mirroring the
context-override test: device context `{foo: bar}`, reading context
`{foo: 123, abc: def}` — the delivered context maps `foo` to the device's
`bar` and keeps the reading's `abc: def`. -/
theorem finalizeReading_context_device_wins_witness :
    (ctxLookup
        (finalizeReading ⟨"d3", [], [("foo", "bar")]⟩
          ⟨Value.intV 2, [("foo", "123"), ("abc", "def")]⟩).1.context "foo"
      = some "bar")
    ∧ (ctxLookup
        (finalizeReading ⟨"d3", [], [("foo", "bar")]⟩
          ⟨Value.intV 2, [("foo", "123"), ("abc", "def")]⟩).1.context "abc"
      = some "def")
    ∧ (finalizeReading ⟨"d3", [], [("foo", "bar")]⟩
        ⟨Value.intV 2, [("foo", "123"), ("abc", "def")]⟩).2 = none := by
  have hfoo := finalizeReading_context_device_wins
    ⟨"d3", [], [("foo", "bar")]⟩
    ⟨Value.intV 2, [("foo", "123"), ("abc", "def")]⟩ "foo"
    (by simp) rfl
  have habc := finalizeReading_context_device_wins
    ⟨"d3", [], [("foo", "bar")]⟩
    ⟨Value.intV 2, [("foo", "123"), ("abc", "def")]⟩ "abc"
    (by simp) rfl
  refine ⟨?_, ?_, hfoo.1⟩
  · rw [hfoo.2]; simp [ctxLookup, optOr]
  · rw [habc.2]; simp [ctxLookup, optOr]

/-- Intersecting further tags starting from the empty device set yields the
empty set. -/
theorem foldl_filter_nil (tc : TagCache) (ts : List Tag) :
    ts.foldl (fun a t' => a.filter (fun d => (tagGet tc t').elem d)) [] = [] := by
  induction ts with
  | nil => rfl
  | cons t rest ih => simpa using ih

/-- If any remaining tag matches no device, the tag intersection ends up
empty whatever the accumulated device set is. -/
theorem foldl_filter_unknown (tc : TagCache) :
    ∀ (ts : List Tag) (acc : List String),
      (∃ t ∈ ts, tagGet tc t = []) →
      ts.foldl (fun a t' => a.filter (fun d => (tagGet tc t').elem d)) acc
        = [] := by
  intro ts
  induction ts with
  | nil =>
      intro acc h
      simp at h
  | cons t rest ih =>
      intro acc h
      rcases h with ⟨t', ht', hempty⟩
      rcases List.mem_cons.mp ht' with heq | hmem
      · subst heq
        simp only [List.foldl]
        have hfil : acc.filter (fun d => (tagGet tc t').elem d) = [] := by
          rw [hempty]
          simp
        rw [hfil]
        exact foldl_filter_nil tc rest
      · simp only [List.foldl]
        exact ih _ ⟨t', hmem, hempty⟩

/-- A tag list containing a tag that matches no device resolves to the empty
device set. -/
theorem resolveTags_nil_of_unknown_tag (tc : TagCache) (ts : List Tag)
    (h : ∃ t ∈ ts, tagGet tc t = []) : resolveTags tc ts = [] := by
  cases ts with
  | nil => rfl
  | cons t rest =>
      rcases h with ⟨t', ht', hempty⟩
      rcases List.mem_cons.mp ht' with heq | hmem
      · subst heq
        simp only [resolveTags]
        rw [hempty]
        exact foldl_filter_nil tc rest
      · simp only [resolveTags]
        exact foldl_filter_unknown tc rest _ ⟨t', hmem, hempty⟩

/-- C5: resolving a selector with no populated fields returns exactly the
devices tagged in the "system" namespace and no others — membership in the
result is equivalent to carrying a system-namespace tag — and the Devices
and Read query methods on an empty selector accordingly emit results only
for system-namespace devices. -/
theorem empty_selector_selects_system_namespace (dm : DeviceManager)
    (store : ReadingStore) :
    resolve dm emptySelector = .ok (devicesInNamespace dm.tagCache "system")
    ∧ (∀ dev, dev ∈ devicesInNamespace dm.tagCache "system"
        ↔ ∃ e ∈ dm.tagCache, e.1.ns = "system" ∧ dev ∈ e.2)
    ∧ serverDevices dm emptySelector
        = .ok (devicesInNamespace dm.tagCache "system")
    ∧ serverRead dm store emptySelector
        = .ok ((devicesInNamespace dm.tagCache "system").flatMap
            (fun i => storeGet store i)) := by
  refine ⟨?_, ?_, ?_, ?_⟩
  · simp [resolve, emptySelector]
  · intro dev
    simp only [devicesInNamespace, List.mem_flatMap, List.mem_filter,
      decide_eq_true_eq]
    constructor
    · rintro ⟨e, ⟨he, hns⟩, hdev⟩
      exact ⟨e, he, hns, hdev⟩
    · rintro ⟨e, he, hns, hdev⟩
      exact ⟨e, ⟨he, hns⟩, hdev⟩
  · simp [serverDevices, resolve, emptySelector]
  · simp [serverRead, resolve, emptySelector]

/-- C6: resolving a selector whose id (or alias) matches no device fails
with the "not found" error, while resolving a tag selector containing a tag
that matches no device succeeds with the empty result set and no error. -/
theorem resolve_unknown_id_vs_unknown_tag (dm : DeviceManager)
    (sel : Selector) :
    (sel.id ≠ "" → dmGetDevice dm sel.id = none →
      resolve dm sel = .error .notFound)
    ∧ (sel.id = "" → sel.tags ≠ [] →
      (∃ t ∈ sel.tags, tagGet dm.tagCache t = []) →
      resolve dm sel = .ok []) := by
  constructor
  · intro hid hnone
    simp [resolve, hid, hnone]
  · intro hid htags hex
    have hne : ¬ sel.tags.isEmpty := by
      simpa using htags
    simp [resolve, hid, hne,
      resolveTags_nil_of_unknown_tag dm.tagCache sel.tags hex]

/-- Witness for `resolve_unknown_id_vs_unknown_tag`, mirroring the two
no-match Devices tests: with devices 12345 (tag default/foo) and 67890 (tag
other/bar), the id selector "abcdef" errors with not-found, while the tag
selector default/unknown returns the empty set without error. -/
theorem resolve_unknown_id_vs_unknown_tag_witness :
    let dm : DeviceManager :=
      ⟨[], [],
       [(⟨"default", "", "foo"⟩, ["12345"]),
        (⟨"other", "", "bar"⟩, ["67890"])]⟩
    resolve dm ⟨"abcdef", []⟩ = .error .notFound
    ∧ resolve dm ⟨"", [⟨"default", "", "unknown"⟩]⟩ = .ok [] := by
  refine ⟨(resolve_unknown_id_vs_unknown_tag _ _).1 (by decide) rfl,
    (resolve_unknown_id_vs_unknown_tag _ _).2 rfl (by simp) ?_⟩
  exact ⟨⟨"default", "", "unknown"⟩, by simp, by decide⟩

/-- C7: a WriteAsync request whose selector has no id fails with
SELECTOR_REQUIRES_ID, and one whose id matches no device fails with
NO_DEVICE_FOR_SELECTOR; in both cases the transaction cache is unchanged (no
transaction is created) and nothing is emitted on the stream. -/
theorem writeAsync_error_paths (dm : DeviceManager) (txns : List Transaction)
    (p : WritePayload) (ids : List String) (now : String) :
    (p.selector.id = "" →
      serverWriteAsync dm txns p ids now
        = (some .selectorRequiresID, txns, []))
    ∧ (p.selector.id ≠ "" → dmGetDevice dm p.selector.id = none →
      serverWriteAsync dm txns p ids now
        = (some .noDeviceForSelector, txns, [])) := by
  constructor
  · intro hid
    simp [serverWriteAsync, hid]
  · intro hid hnone
    simp [serverWriteAsync, hid, hnone]

/-- Witness for `writeAsync_error_paths`, mirroring the WriteAsync tests:
with the writable device 1234 registered, a payload with an empty selector
fails with SELECTOR_REQUIRES_ID and a payload selecting the unknown id 5678
fails with NO_DEVICE_FOR_SELECTOR; both leave the transaction cache empty
and emit nothing. -/
theorem writeAsync_error_paths_witness :
    let h : DeviceHandler :=
      { name := "w", write := some (fun _ _ => .ok ()), read := none
        bulkRead := none, listen := none }
    let dm : DeviceManager :=
      ⟨[("1234", h)], [], [(⟨"system", "id", "1234"⟩, ["1234"])]⟩
    serverWriteAsync dm [] ⟨⟨"", []⟩, [⟨"foo", ""⟩]⟩ ["t0"] "now"
        = (some .selectorRequiresID, [], [])
    ∧ serverWriteAsync dm [] ⟨⟨"5678", []⟩, [⟨"foo", ""⟩]⟩ ["t0"] "now"
        = (some .noDeviceForSelector, [], []) :=
  ⟨(writeAsync_error_paths _ _ _ _ _).1 rfl,
   (writeAsync_error_paths _ _ _ _ _).2 (by decide) rfl⟩

/-!
## Anchors against the repository's tests

Concrete evaluations of the spec-modelled pipeline, matching the expected
values of the `scheduler_test.go` tests that pin its behaviour down.
-/

/- TestScheduler_applyTransformations_ScaleTransformerOk: scale 2 turns the
int reading 2 into the float 4. -/
example :
    finalizeReadings ⟨"d", [Transformer.scale 2], []⟩ [⟨Value.intV 2, []⟩]
      = ([⟨Value.floatV 4, []⟩], none) := by
  norm_num [finalizeReadings, finalizeReading, applyTransformations,
    applyTransformer, Value.toFloat, mergeDeviceContext]

/- TestScheduler_applyTransformations_ApplyAndScaleTransformerOK: scale 2
then apply (x/4 + 1) on the int reading 2 gives the float 2. -/
example :
    finalizeReadings
      ⟨"d",
       [Transformer.scale 2,
        Transformer.apply (fun v =>
          match v with
          | .floatV q => .ok (.floatV (q / 4 + 1))
          | _ => .error "not a float")], []⟩
      [⟨Value.intV 2, []⟩]
      = ([⟨Value.floatV 2, []⟩], none) := by
  norm_num [finalizeReadings, finalizeReading, applyTransformations,
    applyTransformer, Value.toFloat, mergeDeviceContext]

/- TestScheduler_applyTransformations_multipleFnsOk_withScale: apply (*2),
apply (+3), then scale 2 on the int reading 2 gives the float 14. -/
example :
    finalizeReadings
      ⟨"d",
       [Transformer.apply (fun v =>
          match v with
          | .intV i => .ok (.intV (i * 2))
          | _ => .error "not an int"),
        Transformer.apply (fun v =>
          match v with
          | .intV i => .ok (.intV (i + 3))
          | _ => .error "not an int"),
        Transformer.scale 2], []⟩
      [⟨Value.intV 2, []⟩]
      = ([⟨Value.floatV 14, []⟩], none) := by
  norm_num [finalizeReadings, finalizeReading, applyTransformations,
    applyTransformer, Value.toFloat, mergeDeviceContext]

/- TestScheduler_applyTransformations_oneFnOk_withScaleErr: apply (*2)
succeeds, scale 0 is rejected; the value keeps the first transform's effect
and an error is returned. -/
example :
    (finalizeReadings
      ⟨"d",
       [Transformer.apply (fun v =>
          match v with
          | .intV i => .ok (.intV (i * 2))
          | _ => .error "not an int"),
        Transformer.scale 0], []⟩
      [⟨Value.intV 2, []⟩]).1 = [⟨Value.intV 4, []⟩]
    ∧ (finalizeReadings
      ⟨"d",
       [Transformer.apply (fun v =>
          match v with
          | .intV i => .ok (.intV (i * 2))
          | _ => .error "not an int"),
        Transformer.scale 0], []⟩
      [⟨Value.intV 2, []⟩]).2.isSome = true := by
  refine ⟨?_, ?_⟩ <;>
    norm_num [finalizeReadings, finalizeReading, applyTransformations,
      applyTransformer, Value.toFloat, mergeDeviceContext]

/- TestScheduler_finalizeReadings_withContextAugment: device context
{foo: bar} and reading context {abc: def} merge to {abc: def, foo: bar}. -/
example :
    finalizeReadings ⟨"d", [], [("foo", "bar")]⟩
      [⟨Value.intV 2, [("abc", "def")]⟩]
      = ([⟨Value.intV 2, [("abc", "def"), ("foo", "bar")]⟩], none) := rfl

/- TestServer_Devices / TestServer_Read: with device 12345 tagged in the
system namespace and 67890 in another, the empty selector resolves to
exactly [12345], and Read emits exactly that device's reading. -/
example :
    resolve ⟨[], [],
        [(⟨"system", "", "foo"⟩, ["12345"]),
         (⟨"other", "", "bar"⟩, ["67890"])]⟩ emptySelector
      = .ok ["12345"] := rfl

example :
    serverRead ⟨[], [],
        [(⟨"system", "", "foo"⟩, ["12345"]),
         (⟨"other", "", "bar"⟩, ["67890"])]⟩
      [("12345", [⟨Value.intV 1, []⟩]), ("67890", [⟨Value.intV 2, []⟩])]
      emptySelector
      = .ok [⟨Value.intV 1, []⟩] := rfl

end SynseSDK
